import Mathlib

/-!
Shallow embedding of the Task-API repository: three near-duplicate CRUD HTTP
services backed by a Postgres schema.

* `TaskList` models the simple task-list variant (first document of
  `src/index.js`): table `tasks(id, title NOT NULL, description, completed
  BOOLEAN DEFAULT FALSE, created_at, updated_at)` with GET/POST/PUT/DELETE
  handlers.
* `Pm` models the project-manager module variant (second document of
  `src/index.js`, `src/src/modules/tasks/route.js`,
  `src/src/modules/projects` router, the assignees controller, and the schema
  of `src/unnamed/part_002` with its ON DELETE CASCADE constraints).
* `Solution` models the richer variant written out in
  `src/project-manager-solution.md` (partial PATCH updates, 23505 → 409
  translation, parent-existence checks on relationship queries).

Conventions of the embedding:
* JSON bodies are structures of `Option` fields; `none` is an absent
  (JS `undefined`) field.  A supplied field always carries a non-null value;
  supplying an explicit JSON `null` is not modelled.
* Nullable SQL columns are `Option` valued; `NOT NULL` columns are plain.
* `CURRENT_TIMESTAMP` is a logical clock `Db.clock : Nat`; every mutating
  request ticks the clock, modelling that the wall clock strictly advances
  between separate requests.
* Route `:id` parameters and query parameters arrive as strings, exactly as
  Express delivers them; `pgParseInt` models how Postgres coerces a text
  parameter bound to an integer column (digits with an optional sign; the
  whitespace tolerance of the real parser is not modelled).  A parse failure
  is a store error that the handlers' catch blocks turn into a 500 reply.
* `SELECT` without `ORDER BY` returns rows in insertion order, the physical
  order of an append-only freshly populated Postgres table.
-/

/-- One HTTP JSON reply: the status code plus the envelope fields the
handlers actually emit.  `errorMsg` is the raw `error.message` that the
task-list and module variants copy into their 500 replies (the solution
variant never exposes it). -/
structure Reply (α : Type) where
  status : Nat
  success : Bool
  data : Option α
  message : Option String
  errorMsg : Option String
deriving DecidableEq

/-- JS `String.prototype.trim`: strip whitespace from both ends.  (Stated
over the character list so that it reduces definitionally.) -/
def jsTrim (s : String) : String :=
  ⟨((s.data.dropWhile Char.isWhitespace).reverse.dropWhile Char.isWhitespace).reverse⟩

/-- JS `String.prototype.includes` for a single-character needle. -/
def jsIncludes (s : String) (c : Char) : Bool := s.data.contains c

/-- Numeric value of a decimal digit character. -/
def digitVal? (c : Char) : Option Nat :=
  if c.isDigit then some (c.toNat - 48) else none

/-- Accumulate a digit string into a number; fails on the first non-digit. -/
def digitsVal? : List Char → Nat → Option Nat
  | [], acc => some acc
  | c :: cs, acc =>
    match digitVal? c with
    | some d => digitsVal? cs (acc * 10 + d)
    | none => none

/-- Postgres coercion of a text parameter to `integer`: an optional sign
followed by at least one digit.  Anything else raises
`invalid input syntax for type integer`. -/
def pgParseInt (s : String) : Option Int :=
  match s.data with
  | [] => none
  | '-' :: cs =>
    match cs with
    | [] => none
    | _ => (digitsVal? cs 0).map (fun n => -(n : Int))
  | '+' :: cs =>
    match cs with
    | [] => none
    | _ => (digitsVal? cs 0).map (fun n => (n : Int))
  | cs => (digitsVal? cs 0).map (fun n => (n : Int))

/-- The raw Postgres message for a malformed integer parameter. -/
def pgIntErr (s : String) : String :=
  "invalid input syntax for type integer: \"" ++ s ++ "\""

/-- The raw Postgres message for a duplicate assignee email. -/
def pgDupEmailErr : String :=
  "duplicate key value violates unique constraint \"assignees_email_key\""

/-- The raw Postgres message for writing NULL into `tasks.title`. -/
def pgNullTitleErr : String :=
  "null value in column \"title\" of relation \"tasks\" violates not-null constraint"

/-- The raw Postgres message for a foreign-key violation on `tasks`. -/
def pgFkErr : String :=
  "insert or update on table \"tasks\" violates foreign key constraint"

/-- SQL equality test `col = $n` between a nullable integer column and an
integer parameter; NULL compares unequal to everything. -/
def optIdEq (o : Option Nat) (n : Int) : Bool :=
  match o with
  | some m => decide ((m : Int) = n)
  | none => false

namespace TaskList

/-- A row of the task-list variant's `tasks` table (`src/index.js`,
`createTasksTable`). -/
structure Task where
  id : Nat
  title : String
  description : Option String
  completed : Option Bool
  created_at : Nat
  updated_at : Nat
deriving DecidableEq

/-- Store state of the task-list variant: the `tasks` table in insertion
order, the next `SERIAL` value, and the logical clock. -/
structure Db where
  tasks : List Task
  nextId : Nat
  clock : Nat
deriving DecidableEq

/-- A request body for the task handlers. -/
structure TaskBody where
  title : Option String
  description : Option String
  completed : Option Bool
deriving DecidableEq

/-- GET `/api/tasks`: `SELECT * FROM tasks` with no ORDER BY, so rows come
back in store (insertion) order. -/
def listTasks (db : Db) : Reply (List Task) :=
  ⟨200, true, some db.tasks, none, none⟩

/-- GET `/api/tasks/:id`: the raw path parameter is bound to the integer
`id` column, so a non-numeral id makes the query raise and the catch block
answer 500. -/
def getTask (db : Db) (id : String) : Reply Task :=
  match pgParseInt id with
  | none => ⟨500, false, none, some "Database error", some (pgIntErr id)⟩
  | some n =>
    match db.tasks.find? (fun t => optIdEq (some t.id) n) with
    | none => ⟨404, false, none, some "Task not found", none⟩
    | some t => ⟨200, true, some t, none, none⟩

/-- POST `/api/tasks`: reads only `title` and `description` from the body;
`completed` is left to its column default FALSE. -/
def createTask (db : Db) (body : TaskBody) : Reply Task × Db :=
  match body.title with
  | none => (⟨400, false, none, some "Title is required", none⟩, db)
  | some ttl =>
    if ttl = "" then (⟨400, false, none, some "Title is required", none⟩, db)
    else
      let row : Task := ⟨db.nextId, ttl, body.description, some false, db.clock, db.clock⟩
      (⟨201, true, some row, some "Task created successfully", none⟩,
       ⟨db.tasks ++ [row], db.nextId + 1, db.clock + 1⟩)

/-- PUT `/api/tasks/:id`: full replace.  Every column is set from the body;
an absent body field is `undefined`, which the driver sends as NULL, so an
absent `title` on a matched row violates NOT NULL and yields 500. -/
def putTask (db : Db) (id : String) (body : TaskBody) : Reply Task × Db :=
  match pgParseInt id with
  | none => (⟨500, false, none, some "Database error", some (pgIntErr id)⟩, db)
  | some n =>
    match db.tasks.find? (fun t => optIdEq (some t.id) n) with
    | none => (⟨404, false, none, some "Task not found", none⟩, db)
    | some t0 =>
      match body.title with
      | none => (⟨500, false, none, some "Database error", some pgNullTitleErr⟩, db)
      | some ttl =>
        let row : Task :=
          { t0 with
            title := ttl
            description := body.description
            completed := body.completed
            updated_at := db.clock }
        (⟨200, true, some row, some "Task updated successfully", none⟩,
         ⟨db.tasks.map (fun t => if optIdEq (some t.id) n then row else t),
          db.nextId, db.clock + 1⟩)

/-- DELETE `/api/tasks/:id`. -/
def deleteTask (db : Db) (id : String) : Reply Task × Db :=
  match pgParseInt id with
  | none => (⟨500, false, none, some "Database error", some (pgIntErr id)⟩, db)
  | some n =>
    if db.tasks.any (fun t => optIdEq (some t.id) n) then
      (⟨200, true, none, some "Task deleted successfully", none⟩,
       ⟨db.tasks.filter (fun t => !optIdEq (some t.id) n), db.nextId, db.clock + 1⟩)
    else (⟨404, false, none, some "Task not found", none⟩, db)

end TaskList

namespace Pm

/-- A row of `assignees` (`src/unnamed/part_002`): `email` is UNIQUE NOT
NULL, `role` defaults to member. -/
structure Assignee where
  id : Nat
  name : String
  email : String
  role : Option String
  created_at : Nat
  updated_at : Nat
deriving DecidableEq

/-- A row of `projects` (`src/unnamed/part_002`). -/
structure Project where
  id : Nat
  title : String
  description : Option String
  status : Option String
  priority : Option String
  owner_id : Option Nat
  start_date : Option String
  end_date : Option String
  created_at : Nat
  updated_at : Nat
deriving DecidableEq

/-- A row of `tasks` (`src/unnamed/part_002`): `project_id` and
`assigned_to` are nullable foreign keys with ON DELETE CASCADE. -/
structure Task where
  id : Nat
  title : String
  description : Option String
  status : Option String
  priority : Option String
  project_id : Option Nat
  assigned_to : Option Nat
  due_date : Option String
  completed : Option Bool
  created_at : Nat
  updated_at : Nat
deriving DecidableEq

/-- A row of the `project_assignees` junction table with its
UNIQUE(project_id, assignee_id) constraint. -/
structure ProjectAssignee where
  id : Nat
  project_id : Option Nat
  assignee_id : Option Nat
  role_in_project : Option String
  assigned_at : Nat
deriving DecidableEq

/-- Store state of the project-manager module variant. -/
structure Db where
  assignees : List Assignee
  projects : List Project
  tasks : List Task
  project_assignees : List ProjectAssignee
  nextAssigneeId : Nat
  nextProjectId : Nat
  nextTaskId : Nat
  nextPaId : Nat
  clock : Nat
deriving DecidableEq

/-- `ORDER BY t.created_at DESC`: a row sorts before rows created no later
than it. -/
def taskNewer (a b : Task) : Prop := b.created_at ≤ a.created_at

instance : DecidableRel taskNewer := fun a b => Nat.decLe b.created_at a.created_at

instance : IsTotal Task taskNewer := ⟨fun a b => Nat.le_total b.created_at a.created_at⟩

instance : IsTrans Task taskNewer := ⟨fun _ _ _ hab hbc => le_trans hbc hab⟩

/-- A result row of the tasks queries in `src/src/modules/tasks/route.js`:
`t.*` plus the LEFT JOINed project title and assignee name. -/
structure TaskRow where
  task : Task
  project_title : Option String
  assigned_to_name : Option String
deriving DecidableEq

/-- Decorate a task with its LEFT JOINed project title and assignee name. -/
def taskRow (db : Db) (t : Task) : TaskRow :=
  ⟨t,
   (t.project_id.bind (fun p => db.projects.find? (fun pr => pr.id = p))).map Project.title,
   (t.assigned_to.bind (fun a => db.assignees.find? (fun asg => asg.id = a))).map Assignee.name⟩

/-- A result row of GET `/api/projects/:id/tasks` in `src/index.js`:
`t.*` plus the LEFT JOINed assignee name. -/
structure ProjectTaskRow where
  task : Task
  assigned_to_name : Option String
deriving DecidableEq

/-- Decorate a task with its LEFT JOINed assignee name. -/
def projectTaskRow (db : Db) (t : Task) : ProjectTaskRow :=
  ⟨t, (t.assigned_to.bind (fun a => db.assignees.find? (fun asg => asg.id = a))).map Assignee.name⟩

/-- A request body for the tasks router. -/
structure TaskBody where
  title : Option String
  description : Option String
  status : Option String
  priority : Option String
  project_id : Option Nat
  assigned_to : Option Nat
  due_date : Option String
  completed : Option Bool
deriving DecidableEq

/-- Does a nullable `project_id` reference satisfy the foreign key? -/
def fkProjectOk (db : Db) (o : Option Nat) : Bool :=
  match o with
  | none => true
  | some p => db.projects.any (fun pr => pr.id = p)

/-- Does a nullable `assigned_to` reference satisfy the foreign key? -/
def fkAssigneeOk (db : Db) (o : Option Nat) : Bool :=
  match o with
  | none => true
  | some a => db.assignees.any (fun asg => asg.id = a)

/-- GET `/api/tasks` (`tasksRouter.get("/")`): optional `project_id` query
filter (the raw query string is falsy when empty, else bound to the integer
column), then `ORDER BY t.created_at DESC`. -/
def listTasks (db : Db) (project_id : Option String) : Reply (List TaskRow) :=
  match project_id with
  | none =>
    ⟨200, true, some ((List.insertionSort taskNewer db.tasks).map (taskRow db)), none, none⟩
  | some s =>
    if s = "" then
      ⟨200, true, some ((List.insertionSort taskNewer db.tasks).map (taskRow db)), none, none⟩
    else
      match pgParseInt s with
      | none => ⟨500, false, none, some "Database error", some (pgIntErr s)⟩
      | some n =>
        ⟨200, true,
         some ((List.insertionSort taskNewer
                 (db.tasks.filter (fun t => optIdEq t.project_id n))).map (taskRow db)),
         none, none⟩

/-- GET `/api/tasks/:id` (`tasksRouter.get("/:id")`). -/
def getTaskById (db : Db) (id : String) : Reply TaskRow :=
  match pgParseInt id with
  | none => ⟨500, false, none, some "Database error", some (pgIntErr id)⟩
  | some n =>
    match db.tasks.find? (fun t => optIdEq (some t.id) n) with
    | none => ⟨404, false, none, some "Task not found", none⟩
    | some t => ⟨200, true, some (taskRow db t), none, none⟩

/-- POST `/api/tasks` (`tasksRouter.post("/")`): JS defaults `status =
"pending"`, `priority = "medium"`, `completed = false`; all eight columns
are inserted explicitly, and a dangling foreign key makes the insert raise,
which the catch block turns into 500. -/
def createTask (db : Db) (body : TaskBody) : Reply Task × Db :=
  match body.title with
  | none => (⟨400, false, none, some "Title is required", none⟩, db)
  | some ttl =>
    if ttl = "" then (⟨400, false, none, some "Title is required", none⟩, db)
    else if !fkProjectOk db body.project_id then
      (⟨500, false, none, some "Database error", some pgFkErr⟩, db)
    else if !fkAssigneeOk db body.assigned_to then
      (⟨500, false, none, some "Database error", some pgFkErr⟩, db)
    else
      let row : Task :=
        ⟨db.nextTaskId, ttl, body.description,
         some (body.status.getD "pending"), some (body.priority.getD "medium"),
         body.project_id, body.assigned_to, body.due_date,
         some (body.completed.getD false), db.clock, db.clock⟩
      (⟨201, true, some row, some "Task created successfully", none⟩,
       { db with tasks := db.tasks ++ [row], nextTaskId := db.nextTaskId + 1,
                 clock := db.clock + 1 })

/-- PUT `/api/tasks/:id` (`tasksRouter.put("/:id")`): full replace.  All
eight columns are set from the body, so an absent field is sent as NULL; an
absent `title` on a matched row violates NOT NULL (500), and a dangling
foreign key likewise raises. -/
def putTask (db : Db) (id : String) (body : TaskBody) : Reply Task × Db :=
  match pgParseInt id with
  | none => (⟨500, false, none, some "Database error", some (pgIntErr id)⟩, db)
  | some n =>
    match db.tasks.find? (fun t => optIdEq (some t.id) n) with
    | none => (⟨404, false, none, some "Task not found", none⟩, db)
    | some t0 =>
      match body.title with
      | none => (⟨500, false, none, some "Database error", some pgNullTitleErr⟩, db)
      | some ttl =>
        if !fkProjectOk db body.project_id then
          (⟨500, false, none, some "Database error", some pgFkErr⟩, db)
        else if !fkAssigneeOk db body.assigned_to then
          (⟨500, false, none, some "Database error", some pgFkErr⟩, db)
        else
          let row : Task :=
            { t0 with
              title := ttl
              description := body.description
              status := body.status
              priority := body.priority
              project_id := body.project_id
              assigned_to := body.assigned_to
              due_date := body.due_date
              completed := body.completed
              updated_at := db.clock }
          (⟨200, true, some row, some "Task updated successfully", none⟩,
           { db with tasks := db.tasks.map (fun t => if optIdEq (some t.id) n then row else t),
                     clock := db.clock + 1 })

/-- DELETE `/api/projects/:id` (`projectsRouter.delete("/:id")`): the row
removal itself; the schema's ON DELETE CASCADE then removes the project's
tasks and junction rows. -/
def deleteProject (db : Db) (id : String) : Reply Unit × Db :=
  match pgParseInt id with
  | none => (⟨500, false, none, some "Database error", some (pgIntErr id)⟩, db)
  | some n =>
    if db.projects.any (fun p => optIdEq (some p.id) n) then
      (⟨200, true, none, some "Project deleted successfully", none⟩,
       { db with
           projects := db.projects.filter (fun p => !optIdEq (some p.id) n),
           tasks := db.tasks.filter (fun t => !optIdEq t.project_id n),
           project_assignees := db.project_assignees.filter (fun pa => !optIdEq pa.project_id n),
           clock := db.clock + 1 })
    else (⟨404, false, none, some "Project not found", none⟩, db)

/-- A request body for the assignees controller. -/
structure AssigneeBody where
  name : Option String
  email : Option String
  role : Option String
deriving DecidableEq

/-- `createAssignee` in the assignees controller of `src/index.js`: presence
check only, then a bare INSERT; the UNIQUE email violation is not translated,
so the catch block answers 500 and copies `error.message` into the reply. -/
def createAssignee (db : Db) (body : AssigneeBody) : Reply Assignee × Db :=
  match body.name, body.email with
  | none, _ => (⟨400, false, none, some "Name and email are required", none⟩, db)
  | _, none => (⟨400, false, none, some "Name and email are required", none⟩, db)
  | some nm, some em =>
    if nm = "" ∨ em = "" then
      (⟨400, false, none, some "Name and email are required", none⟩, db)
    else if db.assignees.any (fun a => a.email = em) then
      (⟨500, false, none, some "Database error", some pgDupEmailErr⟩, db)
    else
      let row : Assignee :=
        ⟨db.nextAssigneeId, nm, em, some (body.role.getD "member"), db.clock, db.clock⟩
      (⟨201, true, some row, some "Assignee created successfully", none⟩,
       { db with assignees := db.assignees ++ [row],
                 nextAssigneeId := db.nextAssigneeId + 1, clock := db.clock + 1 })

/-- GET `/api/projects/:id/tasks` in `src/index.js`: no parent-existence
check at all; the handler filters tasks by `project_id` and answers 200 with
whatever (possibly empty) rows come back. -/
def getProjectTasks (db : Db) (id : String) : Reply (List ProjectTaskRow) :=
  match pgParseInt id with
  | none => ⟨500, false, none, some "Database error", some (pgIntErr id)⟩
  | some n =>
    ⟨200, true,
     some ((List.insertionSort taskNewer
             (db.tasks.filter (fun t => optIdEq t.project_id n))).map (projectTaskRow db)),
     none, none⟩

end Pm

namespace Solution

/-- A row of `assignees` in the solution-document schema. -/
structure Assignee where
  id : Nat
  name : String
  email : String
  role : Option String
  created_at : Nat
  updated_at : Nat
deriving DecidableEq

/-- A row of `projects` in the solution-document schema (keyed by `name`,
not `title`). -/
structure Project where
  id : Nat
  name : String
  description : Option String
  status : Option String
  created_at : Nat
  updated_at : Nat
deriving DecidableEq

/-- A row of `tasks` in the solution-document schema: `project_id` is ON
DELETE CASCADE, `assignee_id` is ON DELETE SET NULL. -/
structure Task where
  id : Nat
  title : String
  description : Option String
  status : Option String
  priority : Option String
  due_date : Option String
  project_id : Option Nat
  assignee_id : Option Nat
  created_at : Nat
  updated_at : Nat
deriving DecidableEq

/-- A row of the `project_assignees` junction table with its
UNIQUE(project_id, assignee_id) constraint. -/
structure ProjectAssignee where
  id : Nat
  project_id : Option Nat
  assignee_id : Option Nat
  role_in_project : Option String
  assigned_at : Nat
deriving DecidableEq

/-- Store state of the solution-document variant. -/
structure Db where
  assignees : List Assignee
  projects : List Project
  tasks : List Task
  project_assignees : List ProjectAssignee
  nextAssigneeId : Nat
  nextProjectId : Nat
  nextTaskId : Nat
  nextPaId : Nat
  clock : Nat
deriving DecidableEq

/-- `ORDER BY t.created_at DESC` for the solution variant's task type. -/
def taskNewer (a b : Task) : Prop := b.created_at ≤ a.created_at

instance : DecidableRel taskNewer := fun a b => Nat.decLe b.created_at a.created_at

instance : IsTotal Task taskNewer := ⟨fun a b => Nat.le_total b.created_at a.created_at⟩

instance : IsTrans Task taskNewer := ⟨fun _ _ _ hab hbc => le_trans hbc hab⟩

/-- A request body for POST `/api/assignees`. -/
structure AssigneeBody where
  name : Option String
  email : Option String
  role : Option String
deriving DecidableEq

/-- POST `/api/assignees` (`routes/assignees.js`): `validateAssignee`
(name trimmed to ≥ 2 characters, email containing an at sign), then INSERT
of the trimmed values; error code 23505 is translated to 409 Conflict
without exposing the store message. -/
def createAssignee (db : Db) (body : AssigneeBody) : Reply Assignee × Db :=
  if (match body.name with
      | none => true
      | some nm => decide ((jsTrim nm).length < 2)) then
    (⟨400, false, none, some "Name is required and must be at least 2 characters", none⟩, db)
  else if (match body.email with
      | none => true
      | some em => !jsIncludes em '@') then
    (⟨400, false, none, some "Valid email is required", none⟩, db)
  else
    match body.name, body.email with
    | some nm, some em =>
      if db.assignees.any (fun a => a.email = jsTrim em) then
        (⟨409, false, none, some "Email already exists", none⟩, db)
      else
        let row : Assignee :=
          ⟨db.nextAssigneeId, jsTrim nm, jsTrim em, some (body.role.getD "Developer"),
           db.clock, db.clock⟩
        (⟨201, true, some row, some "Assignee created successfully", none⟩,
         { db with assignees := db.assignees ++ [row],
                   nextAssigneeId := db.nextAssigneeId + 1, clock := db.clock + 1 })
    | _, _ => (⟨400, false, none, some "Valid email is required", none⟩, db)

/-- A request body for PATCH `/api/tasks/:id`: every field optional. -/
structure TaskPatch where
  title : Option String
  description : Option String
  status : Option String
  priority : Option String
  due_date : Option String
  project_id : Option Nat
  assignee_id : Option Nat
deriving DecidableEq

/-- The PATCH handler's title validation: a supplied title must trim to at
least 2 characters. -/
def titleBad (b : TaskPatch) : Bool :=
  match b.title with
  | some s => decide ((jsTrim s).length < 2)
  | none => false

/-- The PATCH handler's check that a supplied `project_id` exists. -/
def projMissing (db : Db) (b : TaskPatch) : Bool :=
  match b.project_id with
  | some p => !db.projects.any (fun pr => pr.id = p)
  | none => false

/-- The PATCH handler's check that a supplied `assignee_id` exists. -/
def asgMissing (db : Db) (b : TaskPatch) : Bool :=
  match b.assignee_id with
  | some a => !db.assignees.any (fun asg => asg.id = a)
  | none => false

/-- Does the PATCH body supply no field at all? -/
def noFields (b : TaskPatch) : Bool :=
  b.title.isNone && b.description.isNone && b.status.isNone && b.priority.isNone &&
  b.due_date.isNone && b.project_id.isNone && b.assignee_id.isNone

/-- Apply the dynamic `SET` list the PATCH handler builds: exactly the
supplied fields, plus `updated_at = CURRENT_TIMESTAMP`. -/
def applyPatch (b : TaskPatch) (clock : Nat) (t : Task) : Task :=
  { t with
    title := match b.title with | some s => jsTrim s | none => t.title
    description := match b.description with | some s => some s | none => t.description
    status := match b.status with | some s => some s | none => t.status
    priority := match b.priority with | some s => some s | none => t.priority
    due_date := match b.due_date with | some s => some s | none => t.due_date
    project_id := match b.project_id with | some p => some p | none => t.project_id
    assignee_id := match b.assignee_id with | some a => some a | none => t.assignee_id
    updated_at := clock }

/-- PATCH `/api/tasks/:id` (`routes/tasks.js`): per-field validation, the
no-fields guard, then the dynamically built UPDATE of only the supplied
columns; a non-numeral id makes that UPDATE raise (500), and zero matched
rows answer 404. -/
def patchTask (db : Db) (id : String) (b : TaskPatch) : Reply Task × Db :=
  if titleBad b then
    (⟨400, false, none, some "Title must be at least 2 characters", none⟩, db)
  else if projMissing db b then
    (⟨400, false, none, some "Project not found", none⟩, db)
  else if asgMissing db b then
    (⟨400, false, none, some "Assignee not found", none⟩, db)
  else if noFields b then
    (⟨400, false, none, some "No fields to update", none⟩, db)
  else
    match pgParseInt id with
    | none => (⟨500, false, none, some "Error updating task", none⟩, db)
    | some n =>
      match db.tasks.find? (fun t => optIdEq (some t.id) n) with
      | none => (⟨404, false, none, some "Task not found", none⟩, db)
      | some t0 =>
        let row := applyPatch b db.clock t0
        (⟨200, true, some row, some "Task updated successfully", none⟩,
         { db with tasks := db.tasks.map (fun t => if optIdEq (some t.id) n then row else t),
                   clock := db.clock + 1 })

/-- A result row of GET `/api/projects/:id/tasks` in the solution variant:
`t.*` plus the LEFT JOINed assignee name and email. -/
structure ProjTaskRow where
  task : Task
  assignee_name : Option String
  assignee_email : Option String
deriving DecidableEq

/-- Decorate a task with its LEFT JOINed assignee name and email. -/
def projTaskRow (db : Db) (t : Task) : ProjTaskRow :=
  ⟨t,
   (t.assignee_id.bind (fun a => db.assignees.find? (fun asg => asg.id = a))).map Assignee.name,
   (t.assignee_id.bind (fun a => db.assignees.find? (fun asg => asg.id = a))).map Assignee.email⟩

/-- GET `/api/projects/:id/tasks` (`routes/projects.js`): first confirm the
project exists (404 if not), then return its tasks newest first.  The reply
also carries the project name in a `project` field, which the embedding does
not model. -/
def getProjectTasks (db : Db) (id : String) : Reply (List ProjTaskRow) :=
  match pgParseInt id with
  | none => ⟨500, false, none, some "Error fetching project tasks", none⟩
  | some n =>
    match db.projects.find? (fun p => optIdEq (some p.id) n) with
    | none => ⟨404, false, none, some "Project not found", none⟩
    | some _ =>
      ⟨200, true,
       some ((List.insertionSort taskNewer
               (db.tasks.filter (fun t => optIdEq t.project_id n))).map (projTaskRow db)),
       none, none⟩

/-- A request body for POST `/api/assignees/:id/projects`. -/
structure AssignBody where
  project_id : Option Nat
  role_in_project : Option String
deriving DecidableEq

/-- POST `/api/assignees/:id/projects` (`routes/assignees.js`): require a
truthy `project_id`, confirm the assignee (404) and the project (400) exist,
then INSERT into the junction table; error code 23505 — the
UNIQUE(project_id, assignee_id) violation — is translated to 409. -/
def assignToProject (db : Db) (id : String) (b : AssignBody) : Reply ProjectAssignee × Db :=
  if b.project_id.getD 0 = 0 then
    (⟨400, false, none, some "Project ID is required", none⟩, db)
  else
    match pgParseInt id with
    | none => (⟨500, false, none, some "Error assigning assignee to project", none⟩, db)
    | some n =>
      if !db.assignees.any (fun a => optIdEq (some a.id) n) then
        (⟨404, false, none, some "Assignee not found", none⟩, db)
      else
        match b.project_id with
        | none => (⟨400, false, none, some "Project ID is required", none⟩, db)
        | some p =>
          if !db.projects.any (fun pr => pr.id = p) then
            (⟨400, false, none, some "Project not found", none⟩, db)
          else if db.project_assignees.any
              (fun pa => pa.project_id = some p ∧ pa.assignee_id = some n.toNat) then
            (⟨409, false, none, some "Assignee is already assigned to this project", none⟩, db)
          else
            let row : ProjectAssignee :=
              ⟨db.nextPaId, some p, some n.toNat, some (b.role_in_project.getD "Team Member"),
               db.clock⟩
            (⟨201, true, some row, some "Assignee assigned to project successfully", none⟩,
             { db with project_assignees := db.project_assignees ++ [row],
                       nextPaId := db.nextPaId + 1, clock := db.clock + 1 })

/-- A request body for POST `/api/tasks` in the solution variant. -/
structure TaskBody where
  title : Option String
  description : Option String
  status : Option String
  priority : Option String
  due_date : Option String
  project_id : Option Nat
  assignee_id : Option Nat
deriving DecidableEq

/-- `validateTask` of `routes/tasks.js`: title trimmed to ≥ 2 characters,
truthy `project_id` and `assignee_id`. -/
def validateTask (b : TaskBody) : Option String :=
  if (match b.title with
      | none => true
      | some s => decide ((jsTrim s).length < 2)) then
    some "Title is required and must be at least 2 characters"
  else if b.project_id.getD 0 = 0 then some "Project ID is required"
  else if b.assignee_id.getD 0 = 0 then some "Assignee ID is required"
  else none

/-- POST `/api/tasks` (`routes/tasks.js`): validation, then existence checks
for the referenced project and assignee (400), then the INSERT with JS
defaults `status = "Todo"`, `priority = "Medium"`; `description || null` and
`due_date || null` turn an empty string into NULL. -/
def createTask (db : Db) (b : TaskBody) : Reply Task × Db :=
  match validateTask b with
  | some msg => (⟨400, false, none, some msg, none⟩, db)
  | none =>
    match b.title, b.project_id, b.assignee_id with
    | some ttl, some p, some a =>
      if !db.projects.any (fun pr => pr.id = p) then
        (⟨400, false, none, some "Project not found", none⟩, db)
      else if !db.assignees.any (fun asg => asg.id = a) then
        (⟨400, false, none, some "Assignee not found", none⟩, db)
      else
        let row : Task :=
          ⟨db.nextTaskId, jsTrim ttl,
           (match b.description with
            | some d => if d = "" then none else some d
            | none => none),
           some (b.status.getD "Todo"), some (b.priority.getD "Medium"),
           (match b.due_date with
            | some d => if d = "" then none else some d
            | none => none),
           some p, some a, db.clock, db.clock⟩
        (⟨201, true, some row, some "Task created successfully", none⟩,
         { db with tasks := db.tasks ++ [row], nextTaskId := db.nextTaskId + 1,
                   clock := db.clock + 1 })
    | _, _, _ => (⟨400, false, none, some "Title is required and must be at least 2 characters", none⟩, db)

/-- A result row of GET `/api/tasks/:id` in the solution variant: `t.*`, the
INNER JOINed project name, and the LEFT JOINed assignee name and email. -/
structure TaskDetail where
  task : Task
  project_name : String
  assignee_name : Option String
  assignee_email : Option String
deriving DecidableEq

/-- GET `/api/tasks/:id` (`routes/tasks.js`): `JOIN projects` is an inner
join, so a task whose project is missing joins to no row and the handler
answers 404. -/
def getTask (db : Db) (id : String) : Reply TaskDetail :=
  match pgParseInt id with
  | none => ⟨500, false, none, some "Error fetching task", none⟩
  | some n =>
    match db.tasks.find? (fun t => optIdEq (some t.id) n) with
    | none => ⟨404, false, none, some "Task not found", none⟩
    | some t =>
      match t.project_id.bind (fun p => db.projects.find? (fun pr => pr.id = p)) with
      | none => ⟨404, false, none, some "Task not found", none⟩
      | some pr =>
        let asg := t.assignee_id.bind (fun a => db.assignees.find? (fun x => x.id = a))
        ⟨200, true, some ⟨t, pr.name, asg.map Assignee.name, asg.map Assignee.email⟩,
         none, none⟩

end Solution

/-- Each concrete (project, assignee) pair occurs at most once in the
junction table, the content of UNIQUE(project_id, assignee_id). -/
def PairOnce (l : List Solution.ProjectAssignee) : Prop :=
  ∀ p a : Nat,
    (l.filter (fun x => x.project_id = some p ∧ x.assignee_id = some a)).length ≤ 1

/-- C1 fixture: a stored module-variant task carrying a description. -/
def C1task : Pm.Task :=
  ⟨1, "Design Homepage", some "Create new homepage design", some "pending", some "medium",
   none, none, none, some false, 0, 0⟩

/-- C1 fixture: a module-variant store holding only `C1task`. -/
def C1db : Pm.Db := ⟨[], [], [C1task], [], 1, 1, 2, 1, 1⟩

/-- C1 fixture: a sparse update body supplying only the title. -/
def C1body : Pm.TaskBody := ⟨some "Design Homepage v2", none, none, none, none, none, none, none⟩

/-- C1 witness fixture: a stored solution-variant task. -/
def C1wtask : Solution.Task :=
  ⟨1, "Design Homepage", some "Create wireframes", some "Todo", some "Medium", none, none, none, 0, 0⟩

/-- C1 witness fixture: a solution-variant store holding only `C1wtask`. -/
def C1wdb : Solution.Db := ⟨[], [], [C1wtask], [], 1, 1, 2, 1, 5⟩

/-- C1 witness fixture: a sparse patch supplying only the status. -/
def C1wpatch : Solution.TaskPatch := ⟨none, none, some "Done", none, none, none, none⟩

/-- C2 fixture: a stored module-variant assignee. -/
def C2assignee : Pm.Assignee := ⟨1, "John Doe", "john@example.com", some "admin", 0, 0⟩

/-- C2 fixture: a module-variant store holding only `C2assignee`. -/
def C2db : Pm.Db := ⟨[C2assignee], [], [], [], 2, 1, 1, 1, 1⟩

/-- C2 fixture: a create body reusing the stored email. -/
def C2body : Pm.AssigneeBody := ⟨some "Johnny", some "john@example.com", none⟩

/-- C2 witness fixture: a stored solution-variant assignee. -/
def C2wassignee : Solution.Assignee := ⟨1, "John Doe", "john@example.com", some "Developer", 0, 0⟩

/-- C2 witness fixture: a solution-variant store holding only `C2wassignee`. -/
def C2wdb : Solution.Db := ⟨[C2wassignee], [], [], [], 2, 1, 1, 1, 1⟩

/-- C2 witness fixture: a create body reusing the stored email. -/
def C2wbody : Solution.AssigneeBody := ⟨some "Johnny", some "john@example.com", none⟩

/-- C3 fixture: a module-variant store with no projects at all. -/
def C3db : Pm.Db := ⟨[], [], [], [], 1, 1, 1, 1, 0⟩

/-- C3 witness fixture: a solution-variant store with no projects at all. -/
def C3wdb : Solution.Db := ⟨[], [], [], [], 1, 1, 1, 1, 0⟩

/-- C7 fixture: the older of two stored task-list rows. -/
def C7t1 : TaskList.Task := ⟨1, "Learn Node.js", some "Complete Node.js tutorial", some false, 1, 1⟩

/-- C7 fixture: the newer of two stored task-list rows. -/
def C7t2 : TaskList.Task := ⟨2, "Build REST API", some "Create CRUD operations", some false, 2, 2⟩

/-- C7 fixture: a task-list store holding the two rows in insertion order. -/
def C7db : TaskList.Db := ⟨[C7t1, C7t2], 3, 3⟩

/-- C7 witness fixture: the older of two stored module-variant tasks. -/
def C7wt1 : Pm.Task :=
  ⟨1, "Setup Database", none, some "completed", some "high", some 1, none, none, some true, 1, 1⟩

/-- C7 witness fixture: the newer of two stored module-variant tasks. -/
def C7wt2 : Pm.Task :=
  ⟨2, "Design Homepage", none, some "pending", some "high", some 1, none, none, some false, 2, 2⟩

/-- C7 witness fixture: a module-variant store holding the two tasks. -/
def C7wdb : Pm.Db := ⟨[], [⟨1, "Website Redesign", none, some "active", some "high", none, none, none, 0, 0⟩], [C7wt1, C7wt2], [], 1, 2, 3, 1, 3⟩

/-- C8 fixture: the pre-existing project the scenario references. -/
def C8project : Solution.Project := ⟨1, "Website Redesign", none, some "Active", 0, 0⟩

/-- C8 fixture: the pre-existing assignee the scenario references. -/
def C8assignee : Solution.Assignee := ⟨1, "John Doe", "john@example.com", some "Frontend Developer", 0, 0⟩

/-- C8 fixture: a solution-variant store with project 1 and assignee 1 and a
fresh, empty tasks table. -/
def C8db : Solution.Db := ⟨[C8assignee], [C8project], [], [], 2, 2, 1, 1, 3⟩

/-- C8 fixture: the request body of the example scenario. -/
def C8body : Solution.TaskBody := ⟨some "Design Homepage", none, none, none, none, some 1, some 1⟩

/-- C8 fixture: the row the scenario creates. -/
def C8row : Solution.Task :=
  ⟨1, "Design Homepage", none, some "Todo", some "Medium", none, some 1, some 1, 3, 3⟩

/-- C4 witness fixture: a stored module-variant project. -/
def C4wproject : Pm.Project :=
  ⟨1, "Website Redesign", none, some "active", some "high", none, none, none, 0, 0⟩

/-- C4 witness fixture: a task belonging to project 1. -/
def C4wtask : Pm.Task :=
  ⟨1, "Design Homepage", none, some "pending", some "medium", some 1, none, none, some false, 1, 1⟩

/-- C4 witness fixture: a junction row of project 1. -/
def C4wpa : Pm.ProjectAssignee := ⟨1, some 1, some 1, some "Project Lead", 1⟩

/-- C4 witness fixture: a module-variant store around project 1. -/
def C4wdb : Pm.Db :=
  ⟨[⟨1, "John Doe", "john@example.com", some "admin", 0, 0⟩], [C4wproject], [C4wtask], [C4wpa],
   2, 2, 2, 2, 2⟩

/-- C5 witness fixture: an empty module-variant store. -/
def C5wdb : Pm.Db := ⟨[], [], [], [], 1, 1, 1, 1, 0⟩

/-- C5 witness fixture: a create body supplying title and description. -/
def C5wbody : Pm.TaskBody :=
  ⟨some "Build REST API", some "Create CRUD operations", none, none, none, none, none, none⟩

/-- C6 witness fixture: a stored solution-variant assignee. -/
def C6wassignee : Solution.Assignee := ⟨1, "Jane Smith", "jane@example.com", some "Developer", 0, 0⟩

/-- C6 witness fixture: a stored solution-variant project. -/
def C6wproject : Solution.Project := ⟨1, "Website Redesign", none, some "Active", 0, 0⟩

/-- C6 witness fixture: the junction row pairing project 1 with assignee 1. -/
def C6wpa : Solution.ProjectAssignee := ⟨1, some 1, some 1, some "Lead Developer", 1⟩

/-- C6 witness fixture: a solution-variant store where (1, 1) is already
assigned. -/
def C6wdb : Solution.Db := ⟨[C6wassignee], [C6wproject], [], [C6wpa], 2, 2, 1, 2, 2⟩

/-- C6 witness fixture: a body asking to assign project 1 again. -/
def C6wbody : Solution.AssignBody := ⟨some 1, none⟩

/-- C9 witness fixture: an empty task-list store. -/
def C9wdb : TaskList.Db := ⟨[], 1, 0⟩

/-- C9 witness fixture: an arbitrary update body. -/
def C9wbody : TaskList.TaskBody := ⟨some "Learn Node.js", none, none⟩

/-- C10 witness fixture: an empty task-list store. -/
def C10wdb : TaskList.Db := ⟨[], 1, 0⟩

/-- C10 witness fixture: a body that also smuggles in `completed := true`. -/
def C10wbody : TaskList.TaskBody :=
  ⟨some "Learn Node.js", some "Complete Node.js tutorial", some true⟩

/-- The empty string is not a Postgres integer literal. -/
theorem pgParseInt_empty : pgParseInt "" = none := rfl

/-- Rows kept by a filter never satisfy the complementary filter. -/
theorem filter_not_filter {α : Type} (p : α → Bool) (l : List α) :
    (l.filter (fun x => !p x)).filter p = [] := by
  rw [List.filter_eq_nil_iff]
  intro a ha
  have h := List.of_mem_filter ha
  simp only [Bool.not_eq_true'] at h
  simp [h]

/-- Stripping the join decoration of `Pm.taskRow` recovers the task rows. -/
theorem map_taskRow_task (db : Pm.Db) :
    ∀ l : List Pm.Task, (l.map (Pm.taskRow db)).map Pm.TaskRow.task = l
  | [] => rfl
  | t :: l => by rw [List.map_cons, List.map_cons, map_taskRow_task db l]; rfl

/-- Stripping the join decoration of `Pm.projectTaskRow` recovers the task
rows. -/
theorem map_projectTaskRow_task (db : Pm.Db) :
    ∀ l : List Pm.Task, (l.map (Pm.projectTaskRow db)).map Pm.ProjectTaskRow.task = l
  | [] => rfl
  | t :: l => by rw [List.map_cons, List.map_cons, map_projectTaskRow_task db l]; rfl

/-- Stripping the join decoration of `Solution.projTaskRow` recovers the
task rows. -/
theorem map_projTaskRow_task (db : Solution.Db) :
    ∀ l : List Solution.Task, (l.map (Solution.projTaskRow db)).map Solution.ProjTaskRow.task = l
  | [] => rfl
  | t :: l => by rw [List.map_cons, List.map_cons, map_projTaskRow_task db l]; rfl

/-- Appending a junction row whose pair is absent preserves pair
uniqueness. -/
theorem pairOnce_append_new (l : List Solution.ProjectAssignee)
    (x : Solution.ProjectAssignee) (hu : PairOnce l)
    (hnew : ∀ p a : Nat, x.project_id = some p → x.assignee_id = some a →
      l.any (fun pa => pa.project_id = some p ∧ pa.assignee_id = some a) = false) :
    PairOnce (l ++ [x]) := by
  intro p a
  rw [List.filter_append, List.length_append]
  by_cases hx : x.project_id = some p ∧ x.assignee_id = some a
  · have h0 : l.filter (fun y => y.project_id = some p ∧ y.assignee_id = some a) = [] := by
      rw [List.filter_eq_nil_iff]
      intro y hy
      have hall := List.any_eq_false.mp (hnew p a hx.1 hx.2) y hy
      simpa using hall
    rw [h0]
    simp [List.filter, hx.1, hx.2]
  · have h1 : [x].filter (fun y => y.project_id = some p ∧ y.assignee_id = some a) = [] := by
      simp [List.filter, hx]
    rw [h1]
    simpa using hu p a

/-- C2 (amended): a duplicate-email create never inserts a row; the
solution-document variant translates the unique violation to 409 Conflict
and does not leak the store error, while the module variant answers 500 and
exposes the raw message (see the counterexample). -/
theorem C2_theorem (db : Solution.Db) (b : Solution.AssigneeBody) (nm em : String)
    (hn : b.name = some nm) (hnl : ¬ (jsTrim nm).length < 2)
    (he : b.email = some em) (hat : jsIncludes em '@' = true)
    (hdup : db.assignees.any (fun a => a.email = jsTrim em) = true) :
    (Solution.createAssignee db b).1.status = 409 ∧
    (Solution.createAssignee db b).1.errorMsg = none ∧
    (Solution.createAssignee db b).2 = db := by
  have hc : Solution.createAssignee db b =
      (⟨409, false, none, some "Email already exists", none⟩, db) := by
    simp only [Solution.createAssignee, hn, he, hat, hdup, decide_eq_false hnl,
      Bool.not_true, Bool.false_eq_true, if_false, if_true]
  rw [hc]
  exact ⟨rfl, rfl, rfl⟩

/-- C2 witness: re-creating the stored email on the solution variant. -/
theorem C2_witness :
    (Solution.createAssignee C2wdb C2wbody).1.status = 409 ∧
    (Solution.createAssignee C2wdb C2wbody).1.errorMsg = none ∧
    (Solution.createAssignee C2wdb C2wbody).2 = C2wdb :=
  C2_theorem C2wdb C2wbody "Johnny" "john@example.com" rfl (by decide) rfl (by decide) (by decide)

/-- C3 (amended): the solution-document variant first confirms the parent
project exists — 404 with no data when it is missing, otherwise 200 with
exactly the project's tasks (joined and ordered newest first); the module
variant's endpoint performs no such check (see the counterexample). -/
theorem C3_theorem (db : Solution.Db) (id : String) (n : Int)
    (hid : pgParseInt id = some n) :
    (db.projects.find? (fun p => optIdEq (some p.id) n) = none →
      (Solution.getProjectTasks db id).status = 404 ∧
      (Solution.getProjectTasks db id).data = none) ∧
    ∀ pr, db.projects.find? (fun p => optIdEq (some p.id) n) = some pr →
      (Solution.getProjectTasks db id).status = 200 ∧
      ∃ rows, (Solution.getProjectTasks db id).data = some rows ∧
        (rows.map Solution.ProjTaskRow.task).Perm
          (db.tasks.filter (fun t => optIdEq t.project_id n)) ∧
        List.Sorted Solution.taskNewer (rows.map Solution.ProjTaskRow.task) := by
  constructor
  · intro hnone
    have hc : Solution.getProjectTasks db id =
        ⟨404, false, none, some "Project not found", none⟩ := by
      simp only [Solution.getProjectTasks, hid, hnone]
    rw [hc]
    exact ⟨rfl, rfl⟩
  · intro pr hpr
    have hc : Solution.getProjectTasks db id =
        ⟨200, true,
         some ((List.insertionSort Solution.taskNewer
                 (db.tasks.filter (fun t => optIdEq t.project_id n))).map
                (Solution.projTaskRow db)),
         none, none⟩ := by
      simp only [Solution.getProjectTasks, hid, hpr]
    rw [hc]
    refine ⟨rfl, _, rfl, ?_, ?_⟩
    · rw [map_projTaskRow_task]
      exact List.perm_insertionSort _ _
    · rw [map_projTaskRow_task]
      exact List.sorted_insertionSort _ _

/-- C3 witness: requesting the tasks of the absent project 7 on the
solution variant. -/
theorem C3_witness :
    (Solution.getProjectTasks C3wdb "7").status = 404 ∧
    (Solution.getProjectTasks C3wdb "7").data = none :=
  (C3_theorem C3wdb "7" 7 (by decide)).1 (by decide)

/-- C4: deleting an existing project answers 200, the ON DELETE CASCADE
constraints remove every task and junction row referencing it, and a
subsequent list of tasks filtered by that project id returns the empty
sequence. -/
theorem C4_theorem (db : Pm.Db) (id : String) (n : Int)
    (hid : pgParseInt id = some n)
    (hex : db.projects.any (fun p => optIdEq (some p.id) n) = true) :
    (Pm.deleteProject db id).1.status = 200 ∧
    (Pm.deleteProject db id).2.tasks.filter (fun t => optIdEq t.project_id n) = [] ∧
    (Pm.deleteProject db id).2.project_assignees.filter
      (fun pa => optIdEq pa.project_id n) = [] ∧
    (Pm.listTasks (Pm.deleteProject db id).2 (some id)).status = 200 ∧
    (Pm.listTasks (Pm.deleteProject db id).2 (some id)).data = some [] := by
  have hne : ¬ id = "" := by
    intro h
    rw [h, pgParseInt_empty] at hid
    cases hid
  have hc : Pm.deleteProject db id =
      (⟨200, true, none, some "Project deleted successfully", none⟩,
       { db with
           projects := db.projects.filter (fun p => !optIdEq (some p.id) n),
           tasks := db.tasks.filter (fun t => !optIdEq t.project_id n),
           project_assignees := db.project_assignees.filter (fun pa => !optIdEq pa.project_id n),
           clock := db.clock + 1 }) := by
    simp only [Pm.deleteProject, hid, hex, if_true]
  rw [hc]
  refine ⟨rfl, filter_not_filter _ _, filter_not_filter _ _, ?_, ?_⟩
  · simp only [Pm.listTasks, if_neg hne, hid]
  · simp only [Pm.listTasks, if_neg hne, hid, filter_not_filter]
    rfl

/-- C4 witness: deleting project 1 removes its task and junction row and
empties the filtered list. -/
theorem C4_witness :
    (Pm.deleteProject C4wdb "1").1.status = 200 ∧
    (Pm.deleteProject C4wdb "1").2.tasks.filter (fun t => optIdEq t.project_id 1) = [] ∧
    (Pm.deleteProject C4wdb "1").2.project_assignees.filter
      (fun pa => optIdEq pa.project_id 1) = [] ∧
    (Pm.listTasks (Pm.deleteProject C4wdb "1").2 (some "1")).status = 200 ∧
    (Pm.listTasks (Pm.deleteProject C4wdb "1").2 (some "1")).data = some [] :=
  C4_theorem C4wdb "1" 1 (by decide) (by decide)

/-- C1: the claim as stated is false on the module variant.  PUT
`/api/tasks/:id` is a full replace: the request supplies only `title`, the
update succeeds with 200, yet the unsupplied `description` (and the other
unsupplied columns) are overwritten with NULL instead of retaining their
prior values. -/
theorem C1_counterexample :
    (Pm.putTask C1db "1" C1body).1.status = 200 ∧
    (Pm.putTask C1db "1" C1body).2.tasks.map Pm.Task.description = [none] ∧
    C1db.tasks.map Pm.Task.description = [some "Create new homepage design"] := by
  decide

/-- C2: the claim as stated is false on the module variant.  `createAssignee`
does not translate the 23505 unique violation: a duplicate email yields 500,
not 409, and the raw store message is copied into the reply. -/
theorem C2_counterexample :
    (Pm.createAssignee C2db C2body).1.status = 500 ∧
    (Pm.createAssignee C2db C2body).1.status ≠ 409 ∧
    (Pm.createAssignee C2db C2body).1.errorMsg = some pgDupEmailErr ∧
    (Pm.createAssignee C2db C2body).2 = C2db := by
  decide

/-- C3: the claim as stated is false on the module variant.  GET
`/api/projects/:id/tasks` in `src/index.js` performs no parent-existence
check: with no project 99 in the store it answers 200 with an empty array,
not 404. -/
theorem C3_counterexample :
    (Pm.getProjectTasks C3db "99").status = 200 ∧
    (Pm.getProjectTasks C3db "99").status ≠ 404 ∧
    C3db.projects = [] ∧
    (Pm.getProjectTasks C3db "99").data = some [] := by
  decide

/-- C7: the claim as stated is false on the task-list variant.  GET
`/api/tasks` issues `SELECT * FROM tasks` with no ORDER BY, so the reply
lists the strictly older row first — not newest first by creation
timestamp. -/
theorem C7_counterexample :
    (TaskList.listTasks C7db).status = 200 ∧
    (TaskList.listTasks C7db).data = some [C7t1, C7t2] ∧
    C7t1.created_at < C7t2.created_at ∧
    ¬ List.Sorted (fun a b : TaskList.Task => b.created_at ≤ a.created_at) [C7t1, C7t2] := by
  refine ⟨rfl, rfl, by decide, ?_⟩
  intro h
  have := List.rel_of_sorted_cons h C7t2 (by simp)
  simp [C7t1, C7t2] at this

/-- C8: the example scenario holds on the solution-document variant.  POST
`/api/tasks` with title "Design Homepage", project 1 and assignee 1 answers
201 with id 1 and the defaults status "Todo" and priority "Medium", and GET
`/api/tasks/1` then returns a row whose task fields are that same object
(decorated with the joined project and assignee columns). -/
theorem C8_theorem :
    (Solution.createTask C8db C8body).1.status = 201 ∧
    (Solution.createTask C8db C8body).1.data = some C8row ∧
    C8row.id = 1 ∧ C8row.status = some "Todo" ∧ C8row.priority = some "Medium" ∧
    (Solution.getTask (Solution.createTask C8db C8body).2 "1").status = 200 ∧
    ((Solution.getTask (Solution.createTask C8db C8body).2 "1").data).map
      Solution.TaskDetail.task = some C8row := by
  decide

/-- C9: in the task-list variant a non-numeral `:id` reaches the integer
column unparsed, the query raises, and Get-by-id, Update and Delete all
answer 500 Store-Error rather than 404. -/
theorem C9_theorem (db : TaskList.Db) (s : String) (b : TaskList.TaskBody)
    (h : pgParseInt s = none) :
    (TaskList.getTask db s).status = 500 ∧
    (TaskList.getTask db s).status ≠ 404 ∧
    (TaskList.putTask db s b).1.status = 500 ∧
    (TaskList.deleteTask db s).1.status = 500 := by
  simp [TaskList.getTask, TaskList.putTask, TaskList.deleteTask, h]

/-- C9 witness: GET/PUT/DELETE `/api/tasks/abc`. -/
theorem C9_witness :
    (TaskList.getTask C9wdb "abc").status = 500 ∧
    (TaskList.getTask C9wdb "abc").status ≠ 404 ∧
    (TaskList.putTask C9wdb "abc" C9wbody).1.status = 500 ∧
    (TaskList.deleteTask C9wdb "abc").1.status = 500 :=
  C9_theorem C9wdb "abc" C9wbody (by decide)

/-- C10: the task-list POST `/api/tasks` reads only `title` and
`description`; whatever `completed` the body carries is ignored, and the
stored row's `completed` is the column default FALSE. -/
theorem C10_theorem (db : TaskList.Db) (b : TaskList.TaskBody) (ttl : String)
    (ht : b.title = some ttl) (hne : ttl ≠ "") :
    ∃ row : TaskList.Task,
      (TaskList.createTask db b).1.status = 201 ∧
      (TaskList.createTask db b).1.data = some row ∧
      row.completed = some false ∧
      (TaskList.createTask db b).2.tasks = db.tasks ++ [row] ∧
      ∀ c, TaskList.createTask db ⟨b.title, b.description, c⟩ = TaskList.createTask db b := by
  obtain ⟨bt, bd, bc⟩ := b
  cases ht
  have hc : TaskList.createTask db ⟨some ttl, bd, bc⟩ =
      (⟨201, true, some ⟨db.nextId, ttl, bd, some false, db.clock, db.clock⟩,
        some "Task created successfully", none⟩,
       ⟨db.tasks ++ [⟨db.nextId, ttl, bd, some false, db.clock, db.clock⟩], db.nextId + 1,
        db.clock + 1⟩) := by
    simp only [TaskList.createTask, if_neg hne]
  refine ⟨⟨db.nextId, ttl, bd, some false, db.clock, db.clock⟩, ?_, ?_, rfl, ?_, fun c => rfl⟩
  · rw [hc]
  · rw [hc]
  · rw [hc]

/-- C10 witness: creating with a body that also supplies `completed := true`
still stores `completed = false` and the supplied flag is ignored. -/
theorem C10_witness :
    ∃ row : TaskList.Task,
      (TaskList.createTask C10wdb C10wbody).1.status = 201 ∧
      (TaskList.createTask C10wdb C10wbody).1.data = some row ∧
      row.completed = some false ∧
      (TaskList.createTask C10wdb C10wbody).2.tasks = C10wdb.tasks ++ [row] ∧
      ∀ c, TaskList.createTask C10wdb ⟨C10wbody.title, C10wbody.description, c⟩ =
        TaskList.createTask C10wdb C10wbody :=
  C10_theorem C10wdb C10wbody "Learn Node.js" rfl (by decide)


/-- C1 (amended): on the solution-document variant, PATCH `/api/tasks/:id`
with a sparse body updates only the supplied fields — every unsupplied field
retains its prior value, supplied fields take the supplied (title: trimmed)
values, and `updated_at` strictly increases; the module variant's PUT
instead overwrites unsupplied fields with NULL (see the counterexample). -/
theorem C1_theorem (db : Solution.Db) (id : String) (b : Solution.TaskPatch)
    (n : Int) (t0 : Solution.Task)
    (hid : pgParseInt id = some n)
    (ht : db.tasks.find? (fun t => optIdEq (some t.id) n) = some t0)
    (hclk : t0.updated_at < db.clock)
    (htb : Solution.titleBad b = false)
    (hpm : Solution.projMissing db b = false)
    (ham : Solution.asgMissing db b = false)
    (hnf : Solution.noFields b = false) :
    ∃ row : Solution.Task,
      (Solution.patchTask db id b).1 =
        ⟨200, true, some row, some "Task updated successfully", none⟩ ∧
      (Solution.patchTask db id b).2.tasks =
        db.tasks.map (fun t => if optIdEq (some t.id) n then row else t) ∧
      (b.title = none → row.title = t0.title) ∧
      (b.description = none → row.description = t0.description) ∧
      (b.status = none → row.status = t0.status) ∧
      (b.priority = none → row.priority = t0.priority) ∧
      (b.due_date = none → row.due_date = t0.due_date) ∧
      (b.project_id = none → row.project_id = t0.project_id) ∧
      (b.assignee_id = none → row.assignee_id = t0.assignee_id) ∧
      (∀ s, b.title = some s → row.title = jsTrim s) ∧
      (∀ s, b.description = some s → row.description = some s) ∧
      (∀ s, b.status = some s → row.status = some s) ∧
      (∀ s, b.priority = some s → row.priority = some s) ∧
      (∀ s, b.due_date = some s → row.due_date = some s) ∧
      (∀ p, b.project_id = some p → row.project_id = some p) ∧
      (∀ a, b.assignee_id = some a → row.assignee_id = some a) ∧
      row.id = t0.id ∧ row.created_at = t0.created_at ∧
      t0.updated_at < row.updated_at := by
  have hc : Solution.patchTask db id b =
      (⟨200, true, some (Solution.applyPatch b db.clock t0),
        some "Task updated successfully", none⟩,
       { db with
           tasks := db.tasks.map
             (fun t => if optIdEq (some t.id) n then Solution.applyPatch b db.clock t0 else t),
           clock := db.clock + 1 }) := by
    simp only [Solution.patchTask, htb, hpm, ham, hnf, hid, ht, Bool.false_eq_true, if_false]
  refine ⟨Solution.applyPatch b db.clock t0, by rw [hc], by rw [hc],
    ?_, ?_, ?_, ?_, ?_, ?_, ?_, ?_, ?_, ?_, ?_, ?_, ?_, ?_, rfl, rfl, hclk⟩
  · intro h; simp [Solution.applyPatch, h]
  · intro h; simp [Solution.applyPatch, h]
  · intro h; simp [Solution.applyPatch, h]
  · intro h; simp [Solution.applyPatch, h]
  · intro h; simp [Solution.applyPatch, h]
  · intro h; simp [Solution.applyPatch, h]
  · intro h; simp [Solution.applyPatch, h]
  · intro s h; simp [Solution.applyPatch, h]
  · intro s h; simp [Solution.applyPatch, h]
  · intro s h; simp [Solution.applyPatch, h]
  · intro s h; simp [Solution.applyPatch, h]
  · intro s h; simp [Solution.applyPatch, h]
  · intro p h; simp [Solution.applyPatch, h]
  · intro a h; simp [Solution.applyPatch, h]

/-- C1 witness: patching only `status` keeps the stored description and
title and strictly bumps `updated_at`. -/
theorem C1_witness :
    ∃ row : Solution.Task,
      (Solution.patchTask C1wdb "1" C1wpatch).1 =
        ⟨200, true, some row, some "Task updated successfully", none⟩ ∧
      row.description = some "Create wireframes" ∧
      row.title = "Design Homepage" ∧
      row.status = some "Done" ∧
      C1wtask.updated_at < row.updated_at := by
  obtain ⟨row, h1, _, hT, hD, _, _, _, _, _, _, _, hS, _, _, _, _, _, _, hu⟩ :=
    C1_theorem C1wdb "1" C1wpatch 1 C1wtask (by decide) (by decide) (by decide)
      (by decide) (by decide) (by decide) (by decide)
  exact ⟨row, h1, hD rfl, hT rfl, hS "Done" rfl, hu⟩

/-- C5: a valid create on the module variant answers 201 with exactly the
supplied fields plus the generated id, the JS defaults and the creation
timestamps, and an immediately following Get-by-id with that generated id
answers 200 with the same task record (decorated with the joined names). -/
theorem C5_theorem (db : Pm.Db) (b : Pm.TaskBody) (ttl : String)
    (ht : b.title = some ttl) (hne : ttl ≠ "")
    (hfkp : Pm.fkProjectOk db b.project_id = true)
    (hfka : Pm.fkAssigneeOk db b.assigned_to = true)
    (hfresh : ∀ t ∈ db.tasks, t.id ≠ db.nextTaskId) :
    ∃ row : Pm.Task,
      (Pm.createTask db b).1 = ⟨201, true, some row, some "Task created successfully", none⟩ ∧
      row = ⟨db.nextTaskId, ttl, b.description, some (b.status.getD "pending"),
             some (b.priority.getD "medium"), b.project_id, b.assigned_to, b.due_date,
             some (b.completed.getD false), db.clock, db.clock⟩ ∧
      (Pm.createTask db b).2.tasks = db.tasks ++ [row] ∧
      ∀ s, pgParseInt s = some (db.nextTaskId : Int) →
        (Pm.getTaskById (Pm.createTask db b).2 s).status = 200 ∧
        ((Pm.getTaskById (Pm.createTask db b).2 s).data).map Pm.TaskRow.task = some row := by
  have hc : Pm.createTask db b =
      (⟨201, true,
        some ⟨db.nextTaskId, ttl, b.description, some (b.status.getD "pending"),
              some (b.priority.getD "medium"), b.project_id, b.assigned_to, b.due_date,
              some (b.completed.getD false), db.clock, db.clock⟩,
        some "Task created successfully", none⟩,
       { db with
           tasks := db.tasks ++
             [⟨db.nextTaskId, ttl, b.description, some (b.status.getD "pending"),
               some (b.priority.getD "medium"), b.project_id, b.assigned_to, b.due_date,
               some (b.completed.getD false), db.clock, db.clock⟩],
           nextTaskId := db.nextTaskId + 1, clock := db.clock + 1 }) := by
    simp only [Pm.createTask, ht, if_neg hne, hfkp, hfka, Bool.not_true, Bool.false_eq_true,
      if_false]
  refine ⟨_, by rw [hc], rfl, by rw [hc], ?_⟩
  intro s hs
  have hfind : ((Pm.createTask db b).2.tasks).find?
      (fun t => optIdEq (some t.id) (db.nextTaskId : Int)) =
      some ⟨db.nextTaskId, ttl, b.description, some (b.status.getD "pending"),
            some (b.priority.getD "medium"), b.project_id, b.assigned_to, b.due_date,
            some (b.completed.getD false), db.clock, db.clock⟩ := by
    rw [hc]
    rw [List.find?_append]
    have h1 : db.tasks.find? (fun t => optIdEq (some t.id) (db.nextTaskId : Int)) = none := by
      rw [List.find?_eq_none]
      intro t htm
      simpa [optIdEq] using hfresh t htm
    rw [h1]
    simp [List.find?, optIdEq]
  have hg : Pm.getTaskById (Pm.createTask db b).2 s =
      ⟨200, true,
       some (Pm.taskRow (Pm.createTask db b).2
         ⟨db.nextTaskId, ttl, b.description, some (b.status.getD "pending"),
          some (b.priority.getD "medium"), b.project_id, b.assigned_to, b.due_date,
          some (b.completed.getD false), db.clock, db.clock⟩),
       none, none⟩ := by
    simp only [Pm.getTaskById, hs, hfind]
  rw [hg]
  exact ⟨rfl, rfl⟩

/-- C5 witness: creating a task in an empty store and reading back id 1. -/
theorem C5_witness :
    (Pm.createTask C5wdb C5wbody).1.status = 201 ∧
    (Pm.getTaskById (Pm.createTask C5wdb C5wbody).2 "1").status = 200 := by
  obtain ⟨row, h1, h2, h3, h4⟩ :=
    C5_theorem C5wdb C5wbody "Build REST API" rfl (by decide) rfl rfl
      (by intro t htm; simp [C5wdb] at htm)
  exact ⟨by rw [h1], (h4 "1" (by decide)).1⟩

/-- C6: assignment preserves the at-most-once invariant of the junction
table, and re-assigning an already-present (project, assignee) pair — with
both referenced rows existing, as referential integrity guarantees — answers
409 Conflict and leaves the store unchanged. -/
theorem C6_theorem (db : Solution.Db) (id : String) (b : Solution.AssignBody)
    (hu : PairOnce db.project_assignees) :
    PairOnce (Solution.assignToProject db id b).2.project_assignees ∧
    ∀ p (n : Int), b.project_id = some p → p ≠ 0 → pgParseInt id = some n →
      db.assignees.any (fun a => optIdEq (some a.id) n) = true →
      db.projects.any (fun pr => pr.id = p) = true →
      db.project_assignees.any
        (fun pa => pa.project_id = some p ∧ pa.assignee_id = some n.toNat) = true →
      (Solution.assignToProject db id b).1.status = 409 ∧
      (Solution.assignToProject db id b).2 = db := by
  constructor
  · unfold Solution.assignToProject
    split
    · exact hu
    · split
      · exact hu
      · split
        · exact hu
        · split
          · exact hu
          · split
            · exact hu
            · split
              · exact hu
              · rename_i n hasg p hproj hconf
                apply pairOnce_append_new _ _ hu
                intro p' a' hp' ha'
                cases hp'
                cases ha'
                exact Bool.not_eq_true _ ▸ hconf
  · intro p n hbp hp0 hid hasg hproj hdup
    have hc : Solution.assignToProject db id b =
        (⟨409, false, none, some "Assignee is already assigned to this project", none⟩, db) := by
      simp only [Solution.assignToProject, hbp, hid, hasg, hproj, hdup, Option.getD_some,
        Bool.not_true, Bool.false_eq_true, if_false, if_neg hp0, if_true]
    rw [hc]
    exact ⟨rfl, rfl⟩

/-- C6 witness: re-assigning the already-assigned pair (project 1,
assignee 1). -/
theorem C6_witness :
    PairOnce (Solution.assignToProject C6wdb "1" C6wbody).2.project_assignees ∧
    (Solution.assignToProject C6wdb "1" C6wbody).1.status = 409 ∧
    (Solution.assignToProject C6wdb "1" C6wbody).2 = C6wdb := by
  have h := C6_theorem C6wdb "1" C6wbody
    (fun p a => le_trans (List.length_filter_le _ _) (by decide))
  exact ⟨h.1, h.2 1 1 rfl (by decide) (by decide) (by decide) (by decide) (by decide)⟩

/-- C7 (amended): on the module variant, List answers 200 with a permutation
of all stored tasks — filtered by project reference when the query parameter
is a well-formed id — ordered newest first by `created_at`; the task-list
variant issues no ORDER BY and returns rows in store order (see the
counterexample). -/
theorem C7_theorem (db : Pm.Db) :
    ((Pm.listTasks db none).status = 200 ∧
     ∃ rows, (Pm.listTasks db none).data = some rows ∧
       (rows.map Pm.TaskRow.task).Perm db.tasks ∧
       List.Sorted Pm.taskNewer (rows.map Pm.TaskRow.task)) ∧
    ∀ s n, pgParseInt s = some n →
      (Pm.listTasks db (some s)).status = 200 ∧
      ∃ rows, (Pm.listTasks db (some s)).data = some rows ∧
        (rows.map Pm.TaskRow.task).Perm
          (db.tasks.filter (fun t => optIdEq t.project_id n)) ∧
        List.Sorted Pm.taskNewer (rows.map Pm.TaskRow.task) := by
  constructor
  · refine ⟨rfl, (List.insertionSort Pm.taskNewer db.tasks).map (Pm.taskRow db), rfl, ?_, ?_⟩
    · rw [map_taskRow_task]
      exact List.perm_insertionSort _ _
    · rw [map_taskRow_task]
      exact List.sorted_insertionSort _ _
  · intro s n h
    have hne : ¬ s = "" := by
      intro he
      rw [he, pgParseInt_empty] at h
      cases h
    have hc : Pm.listTasks db (some s) =
        ⟨200, true,
         some ((List.insertionSort Pm.taskNewer
                 (db.tasks.filter (fun t => optIdEq t.project_id n))).map (Pm.taskRow db)),
         none, none⟩ := by
      simp only [Pm.listTasks, if_neg hne, h]
    rw [hc]
    refine ⟨rfl, _, rfl, ?_, ?_⟩
    · rw [map_taskRow_task]
      exact List.perm_insertionSort _ _
    · rw [map_taskRow_task]
      exact List.sorted_insertionSort _ _

/-- C7 witness: listing the tasks of project 1 on the module variant. -/
theorem C7_witness :
    (Pm.listTasks C7wdb (some "1")).status = 200 ∧
    ∃ rows, (Pm.listTasks C7wdb (some "1")).data = some rows ∧
      (rows.map Pm.TaskRow.task).Perm
        (C7wdb.tasks.filter (fun t => optIdEq t.project_id 1)) ∧
      List.Sorted Pm.taskNewer (rows.map Pm.TaskRow.task) :=
  (C7_theorem C7wdb).2 "1" 1 (by decide)
